import Mathlib

/-!
Verification of the segment-based date/time editing engine
(react-spectrum millisecond-granularity support).

The development shallowly embeds:
* the Format-Options Resolver (`getFormatOptions`, `DEFAULT_FIELD_OPTIONS`),
* the Value Adapter over the three date/time value shapes,
* the Segment Parser (`parse` over locale-formatter output parts,
  `getSegmentLimits`),
* the Segment Mutator (`PAGE_STEP`, `addSegment`, page increment/decrement),
* the Placeholder Resolver (`getPlaceholder`),
* the display-name lookup (`useDisplayNames`, `DisplayNamesPolyfill`).
-/

/-- Date/time fields in the fixed ordering used by the engine. -/
inductive DTField where
  | year
  | month
  | day
  | hour
  | minute
  | second
  | millisecond
  deriving DecidableEq, Repr

/-- Granularity: the finest field a field editor exposes. -/
inductive Granularity where
  | day
  | hour
  | minute
  | second
  | millisecond
  deriving DecidableEq, Repr

/-- Position of a field in the fixed ordering
{year, month, day, hour, minute, second, millisecond}. -/
def fieldIndex : DTField → Nat
  | .year => 0
  | .month => 1
  | .day => 2
  | .hour => 3
  | .minute => 4
  | .second => 5
  | .millisecond => 6

/-- The field named by a granularity. -/
def granularityField : Granularity → DTField
  | .day => .day
  | .hour => .hour
  | .minute => .minute
  | .second => .second
  | .millisecond => .millisecond

/-- Index of the finest displayed field for a granularity. -/
def granIndex (g : Granularity) : Nat := fieldIndex (granularityField g)

/-- Display form of a single field in the locale-formatter options
(numeric or 2-digit), as in Intl.DateTimeFormatOptions. -/
inductive DisplayForm where
  | numeric
  | twoDigit
  deriving DecidableEq, Repr

/-- FieldOptions: which date/time fields the locale formatter renders and
in which display form, plus the optional fractional-second digit count
(the millisecond field is represented by `fractionalSecondDigits`). -/
structure FieldOptions where
  year : Option DisplayForm
  month : Option DisplayForm
  day : Option DisplayForm
  hour : Option DisplayForm
  minute : Option DisplayForm
  second : Option DisplayForm
  fractionalSecondDigits : Option Nat
  deriving DecidableEq, Repr

/-- Empty explicit options: no override supplied for any field. -/
def noExplicitOptions : FieldOptions := ⟨none, none, none, none, none, none, none⟩

/-- DEFAULT_FIELD_OPTIONS, from the source plan snippet: numeric year, month,
day and hour, 2-digit minute and second, fractionalSecondDigits 3. -/
def DEFAULT_FIELD_OPTIONS : FieldOptions :=
  ⟨some .numeric, some .numeric, some .numeric,
   some .numeric, some .twoDigit, some .twoDigit, some 3⟩

/-- Merge of one field entry: an explicit override, when supplied, replaces
the default display form for that field. -/
def mergeForm (explicit dflt : Option DisplayForm) : Option DisplayForm :=
  match explicit with
  | some f => some f
  | none => dflt

/-- Keep a field entry only when the field is at or above the requested
granularity in the fixed ordering. -/
def includeUpTo (g : Granularity) (f : DTField) (form : Option DisplayForm) :
    Option DisplayForm :=
  if fieldIndex f ≤ granIndex g then form else none

/-- Modelled from the spec: the Format-Options Resolver `getFormatOptions`
of @react-stately/datepicker utils.ts (whose full body is not under src;
the plan document describes it). Walks the fixed field ordering and keeps
each field display form up to and including the requested granularity;
explicit options override individual display forms but never which fields
are included; when granularity is millisecond it sets
fractionalSecondDigits to 3. -/
def getFormatOptions (g : Granularity) (explicitOptions : FieldOptions) :
    FieldOptions :=
  ⟨includeUpTo g .year (mergeForm explicitOptions.year DEFAULT_FIELD_OPTIONS.year),
   includeUpTo g .month (mergeForm explicitOptions.month DEFAULT_FIELD_OPTIONS.month),
   includeUpTo g .day (mergeForm explicitOptions.day DEFAULT_FIELD_OPTIONS.day),
   includeUpTo g .hour (mergeForm explicitOptions.hour DEFAULT_FIELD_OPTIONS.hour),
   includeUpTo g .minute (mergeForm explicitOptions.minute DEFAULT_FIELD_OPTIONS.minute),
   includeUpTo g .second (mergeForm explicitOptions.second DEFAULT_FIELD_OPTIONS.second),
   if g = Granularity.millisecond then some 3 else none⟩

/-- Whether the resolved options include a given field (the millisecond
field is included exactly when fractionalSecondDigits is present). -/
def FieldOptions.includesField (o : FieldOptions) : DTField → Bool
  | .year => o.year.isSome
  | .month => o.month.isSome
  | .day => o.day.isSome
  | .hour => o.hour.isSome
  | .minute => o.minute.isSome
  | .second => o.second.isSome
  | .millisecond => o.fractionalSecondDigits.isSome

/-- Time-of-day fields shared by all three value shapes. -/
structure TimeFields where
  hour : Nat
  minute : Nat
  second : Nat
  millisecond : Nat
  deriving DecidableEq, Repr

/-- Calendar date fields of the date-carrying value shapes. -/
structure DateFields where
  year : Int
  month : Nat
  day : Nat
  deriving DecidableEq, Repr

/-- Modelled from the spec: DateTimeValue, the opaque value object of
@internationalized/date (not under src), with its three shapes: time-only,
date-time, and date-time-with-zone. All three carry the full time fields;
only presence of the date part and zone differs. -/
inductive DateTimeValue where
  | timeOnly (t : TimeFields)
  | dateTime (d : DateFields) (t : TimeFields)
  | zonedDateTime (d : DateFields) (t : TimeFields) (timeZone : String) (offset : Int)
  deriving DecidableEq, Repr

/-- Time fields of a value (present in every shape). -/
def DateTimeValue.timeFields : DateTimeValue → TimeFields
  | .timeOnly t => t
  | .dateTime _ t => t
  | .zonedDateTime _ t _ _ => t

/-- Date fields of a value, when the shape carries a date part. -/
def DateTimeValue.dateFields : DateTimeValue → Option DateFields
  | .timeOnly _ => none
  | .dateTime d _ => some d
  | .zonedDateTime d _ _ _ => some d

/-- Modelled from the spec: the Value Adapter read capability
get(field). Date fields are absent (none) on a time-only value; the time
fields, millisecond included, are defined on every shape, so
get(millisecond) never returns none. -/
def DateTimeValue.get : DateTimeValue → DTField → Option Int
  | v, .year => v.dateFields.map (fun d => d.year)
  | v, .month => v.dateFields.map (fun d => (d.month : Int))
  | v, .day => v.dateFields.map (fun d => (d.day : Int))
  | v, .hour => some (v.timeFields.hour : Int)
  | v, .minute => some (v.timeFields.minute : Int)
  | v, .second => some (v.timeFields.second : Int)
  | v, .millisecond => some (v.timeFields.millisecond : Int)

/-- Modelled from the spec: constructing a time-only value without
sub-second precision, as in Time(hour, minute, second); the missing
millisecond field defaults to 0. -/
def mkTime (hour minute second : Nat) : DateTimeValue :=
  DateTimeValue.timeOnly ⟨hour, minute, second, 0⟩

/-- Rebuild a value with its time fields transformed; the shape and the
date or zone parts are untouched. -/
def DateTimeValue.mapTime (v : DateTimeValue) (f : TimeFields → TimeFields) :
    DateTimeValue :=
  match v with
  | .timeOnly t => .timeOnly (f t)
  | .dateTime d t => .dateTime d (f t)
  | .zonedDateTime d t z o => .zonedDateTime d (f t) z o

/-- Replace the hour field. -/
def TimeFields.withHour (t : TimeFields) (x : Nat) : TimeFields :=
  ⟨x, t.minute, t.second, t.millisecond⟩

/-- Replace the minute field. -/
def TimeFields.withMinute (t : TimeFields) (x : Nat) : TimeFields :=
  ⟨t.hour, x, t.second, t.millisecond⟩

/-- Replace the second field. -/
def TimeFields.withSecond (t : TimeFields) (x : Nat) : TimeFields :=
  ⟨t.hour, t.minute, x, t.millisecond⟩

/-- Replace the millisecond field. -/
def TimeFields.withMillisecond (t : TimeFields) (x : Nat) : TimeFields :=
  ⟨t.hour, t.minute, t.second, x⟩

/-- Modelled from the spec: the cycling arithmetic of the underlying value
type (not under src). Without rounding, the field wraps within
[minV, maxV] carrying the overshoot. With rounding (used for page
stepping), the result snaps to a multiple of the step rather than an
unrounded raw addition: stepping up lands on the next multiple of the
step strictly above the current value, wrapping to the field minimum past
the maximum (consistent with the spec example where a page increment of
the millisecond field from 1 lands on 100); stepping down lands on the
previous multiple strictly below, wrapping to the greatest in-range
multiple past the minimum. -/
def cycleValue (value amount minV maxV : Int) (round : Bool) : Int :=
  if round then
    let step : Int := |amount|
    if 0 < amount then
      let next := (value / step + 1) * step
      if next > maxV then minV else next
    else
      let prev := (if value % step = 0 then value / step - 1 else value / step) * step
      if prev < minV then (maxV / step) * step else prev
  else
    let raw := value + amount
    if raw < minV then maxV - (minV - raw - 1)
    else if raw > maxV then minV + (raw - maxV - 1)
    else raw

/-- Modelled from the spec: the Value Adapter cycle(field, delta, round)
capability for the time fields (hour 0 to 23, minute and second 0 to 59,
millisecond 0 to 999). Date-field cycling is delegated to calendar
arithmetic, a declared non-goal, and is left as the identity here; no
claim depends on it. -/
def DateTimeValue.cycle (v : DateTimeValue) (f : DTField) (amount : Int)
    (round : Bool) : DateTimeValue :=
  match f with
  | .hour => v.mapTime (fun t => t.withHour (cycleValue (t.hour : Int) amount 0 23 round).toNat)
  | .minute => v.mapTime (fun t => t.withMinute (cycleValue (t.minute : Int) amount 0 59 round).toNat)
  | .second => v.mapTime (fun t => t.withSecond (cycleValue (t.second : Int) amount 0 59 round).toNat)
  | .millisecond => v.mapTime (fun t => t.withMillisecond (cycleValue (t.millisecond : Int) amount 0 999 round).toNat)
  | _ => v

/-- Part types reported by the platform locale formatter, extended with
fractionalSecond as in the source. -/
inductive SegmentType where
  | era
  | year
  | month
  | day
  | hour
  | minute
  | second
  | fractionalSecond
  | dayPeriod
  | literal
  | timeZoneName
  deriving DecidableEq, Repr

/-- Internal segment kinds: the engine field names plus the non-field
kinds. The platform type fractionalSecond is remapped to millisecond. -/
inductive SegmentKind where
  | era
  | year
  | month
  | day
  | hour
  | minute
  | second
  | millisecond
  | dayPeriod
  | literal
  | timeZoneName
  deriving DecidableEq, Repr

/-- The required type-name remapping: the platform part type
fractionalSecond is treated as the millisecond field internally; every
other type keeps its name. -/
def remapKind : SegmentType → SegmentKind
  | .era => .era
  | .year => .year
  | .month => .month
  | .day => .day
  | .hour => .hour
  | .minute => .minute
  | .second => .second
  | .fractionalSecond => .millisecond
  | .dayPeriod => .dayPeriod
  | .literal => .literal
  | .timeZoneName => .timeZoneName

/-- The engine field a platform part type denotes, when it denotes one
(fractionalSecond denotes the millisecond field). -/
def typeToField : SegmentType → Option DTField
  | .year => some .year
  | .month => some .month
  | .day => some .day
  | .hour => some .hour
  | .minute => some .minute
  | .second => some .second
  | .fractionalSecond => some .millisecond
  | _ => none

/-- Current value and bounds of an editable segment. -/
structure SegmentLimits where
  value : Int
  minValue : Int
  maxValue : Int
  deriving DecidableEq, Repr

/-- getSegmentLimits: the fractionalSecond case is from the source plan
snippet (value = date.millisecond, minValue 0, maxValue 999). The other
field cases are modelled from the spec: bounds 0 to fieldMax with the
current value read through the Value Adapter; the year, month and day
bounds are schematic calendar defaults that no claim depends on; the
non-field types have no limits. -/
def getSegmentLimits (v : DateTimeValue) (t : SegmentType) : Option SegmentLimits :=
  match t with
  | .year => v.dateFields.map (fun d => ⟨d.year, 1, 9999⟩)
  | .month => v.dateFields.map (fun d => ⟨(d.month : Int), 1, 12⟩)
  | .day => v.dateFields.map (fun d => ⟨(d.day : Int), 1, 31⟩)
  | .hour => some ⟨(v.timeFields.hour : Int), 0, 23⟩
  | .minute => some ⟨(v.timeFields.minute : Int), 0, 59⟩
  | .second => some ⟨(v.timeFields.second : Int), 0, 59⟩
  | .fractionalSecond => some ⟨(v.timeFields.millisecond : Int), 0, 999⟩
  | _ => none

/-- One typed text part of the platform locale formatter output. -/
structure FormatPart where
  type : SegmentType
  text : String
  deriving DecidableEq, Repr

/-- One displayable unit of the segment list. -/
structure Segment where
  kind : SegmentKind
  text : String
  value : Option Int
  minValue : Option Int
  maxValue : Option Int
  isPlaceholder : Bool
  isEditable : Bool
  deriving DecidableEq, Repr

/-- Conversion of one formatter part into a segment: a part whose type
carries segment limits for this value becomes an editable segment with
the remapped kind, numeric value and bounds; any other part becomes a
non-editable literal segment carrying the raw text. -/
def partToSegment (v : DateTimeValue) (p : FormatPart) : Segment :=
  match getSegmentLimits v p.type with
  | some l => ⟨remapKind p.type, p.text, some l.value, some l.minValue,
               some l.maxValue, false, true⟩
  | none => ⟨SegmentKind.literal, p.text, none, none, none, false, false⟩

/-- Modelled from the spec: the Segment Parser (useDateFieldState
processSegments, not under src). Walks the ordered part list produced by
the locale formatter for the resolved format options and converts each
part into a segment; the platform type fractionalSecond is remapped to
the millisecond field. -/
def parse (v : DateTimeValue) (parts : List FormatPart) : List Segment :=
  parts.map (partToSegment v)

/-- Modelled from the spec: the contract of the platform locale formatter
boundary. For the resolved options, its ordered part list renders every
included field as exactly one part (fractional seconds as a single
multi-digit group) and renders no field that the options exclude. -/
def partsWellFormed (opts : FieldOptions) (parts : List FormatPart) : Prop :=
  ∀ f : DTField,
    parts.countP (fun p => decide (typeToField p.type = some f))
      = (if opts.includesField f then 1 else 0)

/-- PAGE_STEP, from the source plan snippet: year 5, month 2, day 7,
hour 2, minute 15, second 15, fractionalSecond 100. -/
def PAGE_STEP : SegmentType → Option Nat
  | .year => some 5
  | .month => some 2
  | .day => some 7
  | .hour => some 2
  | .minute => some 15
  | .second => some 15
  | .fractionalSecond => some 100
  | _ => none

/-- Page step actually applied by the page operations: the PAGE_STEP
entry, defaulting to 1 for types without one. -/
def pageStep (t : SegmentType) : Nat := (PAGE_STEP t).getD 1

/-- addSegment: the fractionalSecond case is from the source plan
snippet, cycle(millisecond, amount, round true). The other field cases
are modelled from the spec section 4.4: cycle on the named field,
rounding exactly when stepping by a page amount (absolute step above 1).
The era, dayPeriod, literal and timeZone cases are outside the claims
and leave the value unchanged. -/
def addSegment (v : DateTimeValue) (t : SegmentType) (amount : Int) :
    DateTimeValue :=
  match t with
  | .year => v.cycle .year amount (decide (1 < |amount|))
  | .month => v.cycle .month amount (decide (1 < |amount|))
  | .day => v.cycle .day amount (decide (1 < |amount|))
  | .hour => v.cycle .hour amount (decide (1 < |amount|))
  | .minute => v.cycle .minute amount (decide (1 < |amount|))
  | .second => v.cycle .second amount (decide (1 < |amount|))
  | .fractionalSecond => v.cycle .millisecond amount true
  | _ => v

/-- PageIncrement: addSegment by the page step of the segment type. -/
def pageIncrement (v : DateTimeValue) (t : SegmentType) : DateTimeValue :=
  addSegment v t (pageStep t)

/-- PageDecrement: addSegment by the negated page step. -/
def pageDecrement (v : DateTimeValue) (t : SegmentType) : DateTimeValue :=
  addSegment v t (-(pageStep t : Int))

/-- Increment: addSegment by one. -/
def increment (v : DateTimeValue) (t : SegmentType) : DateTimeValue :=
  addSegment v t 1

/-- Decrement: addSegment by minus one. -/
def decrement (v : DateTimeValue) (t : SegmentType) : DateTimeValue :=
  addSegment v t (-1)

/-- getPlaceholder, from the source plan snippet: era and dayPeriod
parts return the given display text unchanged; year, month and day use
the external localized placeholder table (passed here as an argument);
fractionalSecond uses three dash characters; every other numeric field
uses two dash characters. -/
def getPlaceholder (table : String → String → String)
    (field value locale : String) : String :=
  if field = "era" ∨ field = "dayPeriod" then value
  else if field = "year" ∨ field = "month" ∨ field = "day" then table field locale
  else if field = "fractionalSecond" then "–––"
  else "––"

/-- Field names accepted by the display-name lookup: the platform
formatter part types extended with millisecond, as in useDisplayNames.ts. -/
inductive DNField where
  | era
  | year
  | quarter
  | month
  | weekday
  | day
  | dayPeriod
  | hour
  | minute
  | second
  | timeZoneName
  | literal
  | millisecond
  deriving DecidableEq, Repr

/-- DisplayNamesPolyfill.of, from useDisplayNames.ts: looks the field up
in the bundled translation dictionary for the locale. -/
def DisplayNamesPolyfill.of (dictionary : DNField → String → String)
    (locale : String) (field : DNField) : String :=
  dictionary field locale

/-- useDisplayNames, from useDisplayNames.ts. The platform
Intl.DisplayNames capability is passed explicitly: constructing it either
throws (error) or yields a lookup that, per field, either throws or
returns an optional string. When construction throws, the polyfill backs
the whole lookup. Otherwise, for any field other than millisecond the
platform lookup is tried and its exception is caught by falling back to
the polyfill; for millisecond the platform lookup is skipped entirely. -/
def useDisplayNames
    (platform : Except Unit (DNField → Except Unit (Option String)))
    (locale : String) (dictionary : DNField → String → String) :
    DNField → Option String :=
  match platform with
  | .error _ => fun field => some (DisplayNamesPolyfill.of dictionary locale field)
  | .ok intlOf => fun field =>
      if field = DNField.millisecond then
        some (DisplayNamesPolyfill.of dictionary locale field)
      else
        match intlOf field with
        | .ok result => result
        | .error _ => some (DisplayNamesPolyfill.of dictionary locale field)

theorem mergeForm_default_isSome (e : Option DisplayForm) (d : DisplayForm) :
    (mergeForm e (some d)).isSome = true := by
  cases e <;> rfl

/-- C1: for every granularity g and every explicit-options override, the
resolved format options contain exactly the fields at or above g in the
fixed ordering {year, month, day, hour, minute, second, millisecond},
and no field below g. -/
theorem resolve_includes_exactly_fields_at_or_above
    (g : Granularity) (eo : FieldOptions) (f : DTField) :
    (getFormatOptions g eo).includesField f
      = decide (fieldIndex f ≤ granIndex g) := by
  cases g <;> cases f <;>
    simp [getFormatOptions, FieldOptions.includesField, includeUpTo,
      granIndex, granularityField, fieldIndex, mergeForm_default_isSome,
      DEFAULT_FIELD_OPTIONS]

/-- C3: whenever the requested granularity is millisecond, the resolved
format options set the fractional digit count to exactly 3, never 1 or 2,
for every explicit-options override. -/
theorem resolve_millisecond_fractional_digits_three (eo : FieldOptions) :
    (getFormatOptions Granularity.millisecond eo).fractionalSecondDigits = some 3 ∧
    (getFormatOptions Granularity.millisecond eo).fractionalSecondDigits ≠ some 1 ∧
    (getFormatOptions Granularity.millisecond eo).fractionalSecondDigits ≠ some 2 := by
  refine ⟨rfl, ?_, ?_⟩ <;> simp [getFormatOptions]

theorem partToSegment_kind_millisecond (v : DateTimeValue) (p : FormatPart) :
    (partToSegment v p).kind = SegmentKind.millisecond ↔
      p.type = SegmentType.fractionalSecond := by
  rcases p with ⟨t, txt⟩
  cases t <;>
    rcases hd : v.dateFields with _ | d <;>
      simp [partToSegment, getSegmentLimits, hd, remapKind]

theorem parse_countP_millisecond (v : DateTimeValue) (parts : List FormatPart) :
    (parse v parts).countP (fun s => decide (s.kind = SegmentKind.millisecond))
      = parts.countP (fun p => decide (typeToField p.type = some DTField.millisecond)) := by
  unfold parse
  rw [List.countP_map]
  apply List.countP_congr
  intro p _
  have h1 := partToSegment_kind_millisecond v p
  cases hp : p.type <;>
    simp [Function.comp, hp, typeToField] <;>
    simpa [hp] using h1

theorem parse_millisecond_segment_props (v : DateTimeValue)
    (parts : List FormatPart) :
    ∀ s ∈ parse v parts, s.kind = SegmentKind.millisecond →
      s.value = some (v.timeFields.millisecond : Int) ∧
      s.minValue = some 0 ∧ s.maxValue = some 999 := by
  intro s hs hkind
  rcases List.mem_map.mp hs with ⟨p, hp, rfl⟩
  have hft : p.type = SegmentType.fractionalSecond :=
    (partToSegment_kind_millisecond v p).mp hkind
  simp [partToSegment, getSegmentLimits, hft]

/-- C2: for every value and every locale-formatter output that is well
formed for the millisecond-granularity resolved options, the parsed
segment list contains exactly one segment of kind millisecond, with
bounds minValue 0 and maxValue 999 and numeric value equal to the
millisecond field of the value. -/
theorem parse_millisecond_segment_unique
    (v : DateTimeValue) (eo : FieldOptions) (parts : List FormatPart)
    (hw : partsWellFormed (getFormatOptions Granularity.millisecond eo) parts) :
    (parse v parts).countP (fun s => decide (s.kind = SegmentKind.millisecond)) = 1 ∧
    ∀ s ∈ parse v parts, s.kind = SegmentKind.millisecond →
      s.value = some (v.timeFields.millisecond : Int) ∧
      s.minValue = some 0 ∧ s.maxValue = some 999 := by
  constructor
  · rw [parse_countP_millisecond]
    have h := hw DTField.millisecond
    simpa [getFormatOptions, FieldOptions.includesField] using h
  · exact parse_millisecond_segment_props v parts

/-- A concrete date-time value, 2024-06-01 12:30:45.000. -/
def witnessValue : DateTimeValue :=
  DateTimeValue.dateTime ⟨2024, 6, 1⟩ ⟨12, 30, 45, 0⟩

/-- A concrete en-US-like formatter part list for millisecond
granularity. -/
def witnessParts : List FormatPart :=
  [⟨SegmentType.month, "6"⟩, ⟨SegmentType.literal, "/"⟩,
   ⟨SegmentType.day, "1"⟩, ⟨SegmentType.literal, "/"⟩,
   ⟨SegmentType.year, "2024"⟩, ⟨SegmentType.literal, ", "⟩,
   ⟨SegmentType.hour, "12"⟩, ⟨SegmentType.literal, ":"⟩,
   ⟨SegmentType.minute, "30"⟩, ⟨SegmentType.literal, ":"⟩,
   ⟨SegmentType.second, "45"⟩, ⟨SegmentType.literal, "."⟩,
   ⟨SegmentType.fractionalSecond, "000"⟩, ⟨SegmentType.literal, " "⟩,
   ⟨SegmentType.dayPeriod, "PM"⟩]

/-- Witness for C2 at the concrete value and part list. -/
theorem parse_millisecond_segment_unique_witness :
    partsWellFormed (getFormatOptions Granularity.millisecond noExplicitOptions)
      witnessParts ∧
    ((parse witnessValue witnessParts).countP
        (fun s => decide (s.kind = SegmentKind.millisecond)) = 1 ∧
      ∀ s ∈ parse witnessValue witnessParts, s.kind = SegmentKind.millisecond →
        s.value = some (witnessValue.timeFields.millisecond : Int) ∧
        s.minValue = some 0 ∧ s.maxValue = some 999) :=
  ⟨by intro f; cases f <;> decide,
   parse_millisecond_segment_unique witnessValue noExplicitOptions witnessParts
     (by intro f; cases f <;> decide)⟩

/-- C6: a time-only value constructed without milliseconds reads 0, never
none, for the millisecond field, and whenever the formatter output is
well formed for millisecond granularity the parsed list has a millisecond
segment with value 0 and bounds 0 to 999. -/
theorem time_only_millisecond_defaults_to_zero
    (hh mm ss : Nat) (eo : FieldOptions) (parts : List FormatPart)
    (hw : partsWellFormed (getFormatOptions Granularity.millisecond eo) parts) :
    (mkTime hh mm ss).get DTField.millisecond = some 0 ∧
    ∃ s ∈ parse (mkTime hh mm ss) parts,
      s.kind = SegmentKind.millisecond ∧ s.value = some 0 ∧
      s.minValue = some 0 ∧ s.maxValue = some 999 := by
  refine ⟨rfl, ?_⟩
  have hcount :
      0 < (parse (mkTime hh mm ss) parts).countP
        (fun s => decide (s.kind = SegmentKind.millisecond)) := by
    rw [parse_countP_millisecond]
    have h := hw DTField.millisecond
    simp only [getFormatOptions, FieldOptions.includesField] at h
    simp at h
    omega
  rcases List.countP_pos_iff.mp hcount with ⟨s, hs, hps⟩
  have hkind : s.kind = SegmentKind.millisecond := by simpa using hps
  have hprops := parse_millisecond_segment_props (mkTime hh mm ss) parts s hs hkind
  exact ⟨s, hs, hkind, by simpa [mkTime, DateTimeValue.timeFields] using hprops.1,
    hprops.2.1, hprops.2.2⟩

/-- Witness for C6 at the concrete part list. -/
theorem time_only_millisecond_defaults_to_zero_witness :
    partsWellFormed (getFormatOptions Granularity.millisecond noExplicitOptions)
      witnessParts ∧
    ((mkTime 12 30 45).get DTField.millisecond = some 0 ∧
      ∃ s ∈ parse (mkTime 12 30 45) witnessParts,
        s.kind = SegmentKind.millisecond ∧ s.value = some 0 ∧
        s.minValue = some 0 ∧ s.maxValue = some 999) :=
  ⟨by intro f; cases f <;> decide,
   time_only_millisecond_defaults_to_zero 12 30 45 noExplicitOptions witnessParts
     (by intro f; cases f <;> decide)⟩

/-- The concrete time-only value 12:30:45.950 used to check the page
increment behavior at millisecond 950. -/
def v950 : DateTimeValue := DateTimeValue.timeOnly ⟨12, 30, 45, 950⟩

/-- C4 counterexample: the claim says the page increment from millisecond
950 wraps to 50 with a carry into the seconds field; on the code it lands
on 0 and the seconds field is unchanged, so the parenthetical behavior is
false at this input. -/
theorem pageIncrement_millisecond_950_not_50 :
    (pageIncrement v950 SegmentType.fractionalSecond).timeFields.millisecond = 0 ∧
    (pageIncrement v950 SegmentType.fractionalSecond).timeFields.second = 45 ∧
    ¬((pageIncrement v950 SegmentType.fractionalSecond).timeFields.millisecond = 50 ∧
      (pageIncrement v950 SegmentType.fractionalSecond).timeFields.second = 46) := by
  decide

/-- C4 amended: applying PageIncrement to the millisecond segment of a
value whose millisecond field is 950 yields a value whose millisecond
field is a multiple of 100 (it wraps within the field to 0; the seconds
field is unchanged, with no carry). -/
theorem pageIncrement_millisecond_950_multiple_of_100
    (v : DateTimeValue) (h : v.timeFields.millisecond = 950) :
    (pageIncrement v SegmentType.fractionalSecond).timeFields.millisecond % 100 = 0 ∧
    (pageIncrement v SegmentType.fractionalSecond).timeFields.millisecond = 0 ∧
    (pageIncrement v SegmentType.fractionalSecond).timeFields.second
      = v.timeFields.second := by
  rcases v with t | ⟨d, t⟩ | ⟨d, t, z, o⟩ <;>
  · simp only [DateTimeValue.timeFields] at h
    simp [pageIncrement, addSegment, pageStep, PAGE_STEP, DateTimeValue.cycle,
      DateTimeValue.mapTime, DateTimeValue.timeFields, TimeFields.withMillisecond,
      h, cycleValue]

/-- Witness for the amended C4 at the concrete value 12:30:45.950. -/
theorem pageIncrement_millisecond_950_multiple_of_100_witness :
    v950.timeFields.millisecond = 950 ∧
    ((pageIncrement v950 SegmentType.fractionalSecond).timeFields.millisecond % 100 = 0 ∧
     (pageIncrement v950 SegmentType.fractionalSecond).timeFields.millisecond = 0 ∧
     (pageIncrement v950 SegmentType.fractionalSecond).timeFields.second
       = v950.timeFields.second) :=
  ⟨rfl, pageIncrement_millisecond_950_multiple_of_100 v950 rfl⟩

/-- C5: the page step used by PageIncrement and PageDecrement matches the
fixed table: year 5, month 2, day 7, hour 2, minute 15, second 15,
millisecond (platform type fractionalSecond) 100. -/
theorem page_step_table :
    pageStep SegmentType.year = 5 ∧ pageStep SegmentType.month = 2 ∧
    pageStep SegmentType.day = 7 ∧ pageStep SegmentType.hour = 2 ∧
    pageStep SegmentType.minute = 15 ∧ pageStep SegmentType.second = 15 ∧
    pageStep SegmentType.fractionalSecond = 100 ∧
    (∀ v t, pageIncrement v t = addSegment v t (pageStep t)) ∧
    (∀ v t, pageDecrement v t = addSegment v t (-(pageStep t : Int))) :=
  ⟨rfl, rfl, rfl, rfl, rfl, rfl, rfl, fun _ _ => rfl, fun _ _ => rfl⟩

/-- C7: for every locale, placeholder table and display text, the
placeholder for the millisecond field (platform type fractionalSecond)
has length 3 and the placeholder for the minute field has length 2. -/
theorem placeholder_lengths (table : String → String → String)
    (value locale : String) :
    (getPlaceholder table "fractionalSecond" value locale).length = 3 ∧
    (getPlaceholder table "minute" value locale).length = 2 := by
  constructor <;> simp [getPlaceholder] <;> decide

/-- C8: for every platform capability, locale and bundled dictionary, the
lookup returned by useDisplayNames resolves the millisecond field to the
bundled translation label, even when the platform naming capability does
not support that field. -/
theorem useDisplayNames_millisecond_resolves
    (platform : Except Unit (DNField → Except Unit (Option String)))
    (locale : String) (dictionary : DNField → String → String) :
    useDisplayNames platform locale dictionary DNField.millisecond
      = some (dictionary DNField.millisecond locale) := by
  cases platform <;> simp [useDisplayNames, DisplayNamesPolyfill.of]

/-- C9: the millisecond lookup never consults the platform capability:
its result is identical for any two platform capabilities and always
equals the bundled dictionary string for the current locale. -/
theorem useDisplayNames_millisecond_platform_independent
    (p1 p2 : Except Unit (DNField → Except Unit (Option String)))
    (locale : String) (dictionary : DNField → String → String) :
    useDisplayNames p1 locale dictionary DNField.millisecond
      = useDisplayNames p2 locale dictionary DNField.millisecond ∧
    useDisplayNames p1 locale dictionary DNField.millisecond
      = some (DisplayNamesPolyfill.of dictionary locale DNField.millisecond) := by
  cases p1 <;> cases p2 <;>
    simp [useDisplayNames, DisplayNamesPolyfill.of]

/-- C10: the lookup never propagates a platform exception for any field:
when construction of the platform capability throws, or its per-field
lookup throws at the requested field, the result is the polyfill
dictionary string for that field and locale. -/
theorem useDisplayNames_no_exception_propagation
    (platform : Except Unit (DNField → Except Unit (Option String)))
    (locale : String) (dictionary : DNField → String → String) (field : DNField)
    (h : platform = Except.error () ∨
      ∃ intlOf, platform = Except.ok intlOf ∧ intlOf field = Except.error ()) :
    useDisplayNames platform locale dictionary field
      = some (dictionary field locale) := by
  rcases h with rfl | ⟨intlOf, rfl, hf⟩
  · simp [useDisplayNames, DisplayNamesPolyfill.of]
  · by_cases hms : field = DNField.millisecond <;>
      simp [useDisplayNames, DisplayNamesPolyfill.of, hms, hf]

/-- Witness for C10: a platform whose construction throws, at the hour
field. -/
theorem useDisplayNames_no_exception_propagation_witness :
    ((Except.error () : Except Unit (DNField → Except Unit (Option String)))
        = Except.error () ∨
      ∃ intlOf, (Except.error () : Except Unit (DNField → Except Unit (Option String)))
        = Except.ok intlOf ∧ intlOf DNField.hour = Except.error ()) ∧
    useDisplayNames (Except.error ()) "en-US" (fun _ _ => "label") DNField.hour
      = some "label" :=
  ⟨Or.inl rfl,
   useDisplayNames_no_exception_propagation (Except.error ()) "en-US"
     (fun _ _ => "label") DNField.hour (Or.inl rfl)⟩
